import Mathlib

/-!
Shallow embedding of the request-validation-and-response-shaping pipeline of the
google-earth-dashboard backend (src/backend/app.py, src/backend/lambda_function.py).

The two HTTP endpoints exist twice: as Flask handlers (`get_map`, `get_pixel_value`
in app.py) and as Lambda handlers (`get_map_data`, `get_pixel_value_data`,
`lambda_handler` in lambda_function.py).  Pure computations (date-range strings,
AOI parsing, band arithmetic, rounding, image-selection policy) are embedded as
Lean functions translated from the source.  Calls into the external Earth Engine
service (`getInfo`, `getMapId`, `sample`, ...) are abstracted by oracle records
(`MapOracle`, `PixelOracle`) whose fields hold the answers the remote service
would return; an `Except.error` field value models the corresponding Python call
raising an exception.  Python floats are modelled as exact rationals, Python ints
as `Int`, and JSON bodies as association lists of key/value pairs.
-/

/-! ## JSON values and response envelopes -/

inductive JVal where
  | str (s : String)
  | int (z : Int)
  | rat (q : ℚ)
  | bool (b : Bool)
  | arr (xs : List JVal)
  | obj (kvs : List (String × JVal))

abbrev Body := List (String × JVal)

/-- The one-key error body `{"error": msg}` produced by most failure returns. -/
def jerr (msg : String) : Body := [("error", JVal.str msg)]

def hasKeyB (b : Body) (k : String) : Bool := b.any (fun kv => kv.1 == k)

def bodyGet (b : Body) (k : String) : Option JVal :=
  (b.find? (fun kv => kv.1 == k)).map (fun kv => kv.2)

/-- A Flask `jsonify(...)` result: body plus status code (200 when omitted). -/
structure FlaskResponse where
  status : Nat
  body : Body

/-- A Lambda proxy-integration result dict. -/
structure LambdaResponse where
  statusCode : Nat
  headers : List (String × String)
  body : Body

/-- The headers dict repeated at every return in lambda_function.py. -/
def corsHeaders : List (String × String) :=
  [("Content-Type", "application/json"), ("Access-Control-Allow-Origin", "*")]

def mkLRes (status : Nat) (b : Body) : LambdaResponse := ⟨status, corsHeaders, b⟩

/-- Headers of the CORS-preflight branch of `lambda_handler`. -/
def optionsHeaders : List (String × String) :=
  [("Access-Control-Allow-Origin", "*"),
   ("Access-Control-Allow-Methods", "GET, POST, OPTIONS"),
   ("Access-Control-Allow-Headers", "Content-Type")]

def hasCors (hs : List (String × String)) : Bool :=
  hs.any (fun h => h.1 == "Access-Control-Allow-Origin" && h.2 == "*")

/-! ## String helpers

`String.toUpper`/`String.endsWith` from core do not reduce inside the kernel, so
data-list versions with identical behaviour are used for the embedding. -/

def strUpper (s : String) : String := ⟨s.data.map Char.toUpper⟩

def strEndsWith (s p : String) : Bool := List.isPrefixOf p.data.reverse s.data.reverse

/-! ## GeometryResolver (app.py 100-124, lambda_function.py 111-134)

The `aoi` query parameter is modelled as `Option (Option JVal)`:
`none` = absent or empty string, `some none` = present but `json.loads` raised,
`some (some j)` = parsed JSON value `j`.  Any exception inside the Python
`try` block (key error, unknown type tag, or the client-side shape validation
performed by `ee.Geometry.Rectangle` / `ee.Geometry.Polygon`) is modelled by
`parseAoiGeometry` returning `none`, upon which the handler substitutes the
default Amazon rectangle. -/

inductive EEGeometry where
  | rectangle (bounds : List ℚ)
  | polygon (ring : List (ℚ × ℚ))
  | point (lng lat : ℚ)
deriving DecidableEq

def defaultAoi : EEGeometry := EEGeometry.rectangle [-65, -10, -55, -2]

/-- Python dict lookup (for duplicate JSON keys, `json.loads` keeps the last). -/
def jLookup (kvs : List (String × JVal)) (k : String) : Option JVal :=
  kvs.foldl (fun acc kv => if kv.1 == k then some kv.2 else acc) none

def asNum : JVal → Option ℚ
  | JVal.int z => some (z : ℚ)
  | JVal.rat q => some q
  | _ => none

/-- `ee.Geometry.Rectangle(bounds)`: requires a list of exactly 4 numbers. -/
def rectBounds : JVal → Option (List ℚ)
  | JVal.arr xs => do
      let ns ← xs.mapM asNum
      if ns.length = 4 then some ns else none
  | _ => none

def coordPair : JVal → Option (ℚ × ℚ)
  | JVal.arr [a, b] => do
      let x ← asNum a
      let y ← asNum b
      some (x, y)
  | _ => none

/-- `ee.Geometry.Polygon([coordinates])`: a single ring of numeric pairs. -/
def polygonRing : JVal → Option (List (ℚ × ℚ))
  | JVal.arr xs => xs.mapM coordPair
  | _ => none

/-- The body of the Python `try` block: `none` models an exception being raised
(caught by the handler, which logs and falls back to the default region). -/
def parseAoiGeometry (j : JVal) : Option EEGeometry :=
  match j with
  | JVal.obj kvs =>
    match jLookup kvs "type" with
    | some (JVal.str "rectangle") => do
        let b ← jLookup kvs "bounds"
        let bs ← rectBounds b
        some (EEGeometry.rectangle bs)
    | some (JVal.str "polygon") => do
        let c ← jLookup kvs "coordinates"
        let r ← polygonRing c
        some (EEGeometry.polygon r)
    | _ => none
  | _ => none

def resolveAoi (aoiParam : Option (Option JVal)) : EEGeometry :=
  match aoiParam with
  | none => defaultAoi
  | some none => defaultAoi
  | some (some j) => (parseAoiGeometry j).getD defaultAoi

/-! ## Date-range construction (app.py 136-141 and 303-308, lambda 142-147, 333-338) -/

/-- Python `format(n, "02d")`. -/
def pad2 (n : Int) : String := if 0 ≤ n ∧ n < 10 then "0" ++ toString n else toString n

def start_date (year month : Int) : String := toString year ++ "-" ++ pad2 month ++ "-01"

def end_date (year month : Int) : String :=
  if month = 12 then toString (year + 1) ++ "-01-01"
  else toString year ++ "-" ++ pad2 (month + 1) ++ "-01"

/-! ## Image-selection policy (app.py 163-169 and 332-338, lambda 160-166 and 367-368) -/

structure EEImage where
  timeStart : Int
deriving DecidableEq

def insertTimeDesc (img : EEImage) : List EEImage → List EEImage
  | [] => [img]
  | j :: rest =>
      if img.timeStart ≤ j.timeStart then j :: insertTimeDesc img rest
      else img :: j :: rest

/-- `collection.sort(\x27system:time_start\x27, False)`: newest first. -/
def sortTimeDesc : List EEImage → List EEImage
  | [] => []
  | i :: rest => insertTimeDesc i (sortTimeDesc rest)

/-- What the handler asks the service to reduce the filtered collection to. -/
inductive SelectedImage where
  | firstOf (img : Option EEImage)
  | medianOf (coll : List EEImage)
deriving DecidableEq

/-- app.py get_map 163-169: most recent image for LST, median composite for NDVI. -/
def appMapSelectImage (data_type : String) (coll : List EEImage) : SelectedImage :=
  if data_type = "LST" then SelectedImage.firstOf (sortTimeDesc coll).head?
  else SelectedImage.medianOf coll

/-- app.py get_pixel_value 332-338: same branch as the map endpoint. -/
def appPixelSelectImage (data_type : String) (coll : List EEImage) : SelectedImage :=
  if data_type = "LST" then SelectedImage.firstOf (sortTimeDesc coll).head?
  else SelectedImage.medianOf coll

/-- lambda_function.py get_map_data 160-166: same branch as app.py. -/
def lambdaMapSelectImage (data_type : String) (coll : List EEImage) : SelectedImage :=
  if data_type = "LST" then SelectedImage.firstOf (sortTimeDesc coll).head?
  else SelectedImage.medianOf coll

/-- lambda_function.py get_pixel_value_data 367-368: unconditionally takes the
most recent image (`sort(\x27system:time_start\x27, False).first()`), with no
median branch for NDVI. -/
def lambdaPixelSelectImage (_data_type : String) (coll : List EEImage) : SelectedImage :=
  SelectedImage.firstOf (sortTimeDesc coll).head?

/-! ## Band arithmetic and rounding -/

/-- MODIS LST scaling `lst_band.multiply(0.02).subtract(273.15)`. -/
def lstTransform (v : ℚ) : ℚ := v * (2/100) - 27315/100

/-- `nir.subtract(red).divide(nir.add(red))`. -/
def ndviOf (nir red : ℚ) : ℚ := (nir - red) / (nir + red)

/-- `mask_s2_clouds`: `image.divide(10000)`, applied per band. -/
def s2Scale (v : ℚ) : ℚ := v / 10000

/-- Python `round` ties-to-even on an exact rational. -/
def roundHalfEven (q : ℚ) : Int :=
  let f : Int := ⌊q⌋
  let r : ℚ := q - (f : ℚ)
  if r < 1/2 then f
  else if 1/2 < r then f + 1
  else if f % 2 = 0 then f else f + 1

/-- Python `round(q, nd)`. -/
def pyRound (nd : Nat) (q : ℚ) : ℚ := ((roundHalfEven (q * 10 ^ nd) : Int) : ℚ) / 10 ^ nd

/-! ## Request parameters and upstream oracles

The current date (`datetime.now()`) is passed explicitly.  Query parameters are
modelled post-parse: Flask returns defaults on int-parse failure, so app-side
`year`/`month` are always ints; the Lambda handlers call `int(...)` directly,
which can raise — modelled by `yearMonthParseFail`.  `latLng = none` models a
missing or unparseable lat/lng pair (Flask `type=float` yields `None`; the
Lambda wraps `float(...)` in try/except). -/

structure Now where
  year : Int
  month : Int

structure MapParams where
  year : Int
  month : Int
  typeRaw : String
  aoi : Option (Option JVal)

structure PixelParams where
  latLng : Option (ℚ × ℚ)
  year : Int
  month : Int
  typeRaw : String

structure LambdaEvent where
  httpMethod : String
  path : String
  yearMonthParseFail : Bool
  year : Int
  month : Int
  typeRaw : String
  aoi : Option (Option JVal)
  latLngParse : Option (ℚ × ℚ)

/-- `{"mapid": ..., "token": ..., "tile_fetcher": ...}` as returned by
`getMapId`; `mapid = none` models a missing or falsy map id, `token = none` a
missing or empty token, `tileFetcherUrl` the `tile_fetcher.url_format`
attribute when present (checked only by app.py). -/
structure MapId where
  mapid : Option String
  token : Option String
  tileFetcherUrl : Option String

/-- Upstream answers consumed on the map endpoint.  `initResult` is
`initialize_gee()` (ok = project id); `sizeResult` is
`filtered_collection.size().getInfo()` (called only by app.py);
`imageInfoResult` is `image.getInfo()` (`ok false` = falsy info, i.e. no data);
`mapIdResult` is `processed_image.getMapId(vis_params)`. -/
structure MapOracle where
  initResult : Except String String
  sizeResult : Except String Nat
  imageInfoResult : Except String Bool
  mapIdResult : Except String MapId

/-- Upstream answers consumed on the pixel endpoint.  `sampleIsNone` models
`processed_band.sample(point, 1000).first()` being Python `None`;
`getInfoError` models `sample.get(band_name).getInfo()` raising (as Earth
Engine does when the sample collection is empty); `lstRaw` / `nirRed` are the
raw band values at the point (`none` = masked pixel, so the extracted value is
`None`); `dateResult` is `ee.Date(...).format(...).getInfo()`. -/
structure PixelOracle where
  initResult : Except String Unit
  sizeResult : Except String Nat
  sampleIsNone : Bool
  getInfoError : Option String
  lstRaw : Option ℚ
  nirRed : Option (ℚ × ℚ)
  dateResult : Except String String

/-! ## Validators (the guard-clause prefix of each handler)

Every validation exit in all four handlers returns status 400 with a one-key
`{"error": msg}` body, so each guard sequence is factored as the first failing
message. -/

/-- app.py get_map 86-95. -/
def validateMapApp (now : Now) (year month : Int) (data_type : String) : Option String :=
  if ¬(2000 ≤ year ∧ year ≤ now.year) then
    some ("Year must be between 2000 and " ++ toString now.year)
  else if ¬(1 ≤ month ∧ month ≤ 12) then
    some "Month must be between 1 and 12"
  else if ¬(data_type = "LST" ∨ data_type = "NDVI") then
    some "Data type must be \x27LST\x27 or \x27NDVI\x27"
  else if year > now.year ∨ (year = now.year ∧ month > now.month) then
    some "Cannot request future dates"
  else none

/-- lambda_function.py get_map_data 81-106: same guards, but the future-date
check lacks the `year > current_date.year` disjunct (that case is already
rejected by the year-range guard). -/
def validateMapLambda (now : Now) (year month : Int) (data_type : String) : Option String :=
  if ¬(2000 ≤ year ∧ year ≤ now.year) then
    some ("Year must be between 2000 and " ++ toString now.year)
  else if ¬(1 ≤ month ∧ month ≤ 12) then
    some "Month must be between 1 and 12"
  else if ¬(data_type = "LST" ∨ data_type = "NDVI") then
    some "Data type must be \x27LST\x27 or \x27NDVI\x27"
  else if year = now.year ∧ month > now.month then
    some "Cannot request future dates"
  else none

/-- app.py get_pixel_value 273-289 (after the lat/lng presence check). -/
def validatePixelApp (now : Now) (lat lng : ℚ) (year month : Int) (data_type : String) :
    Option String :=
  if ¬(-90 ≤ lat ∧ lat ≤ 90) then
    some "Latitude must be between -90 and 90"
  else if ¬(-180 ≤ lng ∧ lng ≤ 180) then
    some "Longitude must be between -180 and 180"
  else if ¬(data_type = "LST" ∨ data_type = "NDVI") then
    some "Data type must be \x27LST\x27 or \x27NDVI\x27"
  else if ¬(2000 ≤ year ∧ year ≤ now.year) then
    some ("Year must be between 2000 and " ++ toString now.year)
  else if ¬(1 ≤ month ∧ month ≤ 12) then
    some "Month must be between 1 and 12"
  else if year > now.year ∨ (year = now.year ∧ month > now.month) then
    some "Cannot request future dates"
  else none

/-- lambda_function.py get_pixel_value_data 278-319 (after the lat/lng parse). -/
def validatePixelLambda (now : Now) (lat lng : ℚ) (year month : Int) (data_type : String) :
    Option String :=
  if ¬(-90 ≤ lat ∧ lat ≤ 90) then
    some "Latitude must be between -90 and 90"
  else if ¬(-180 ≤ lng ∧ lng ≤ 180) then
    some "Longitude must be between -180 and 180"
  else if ¬(data_type = "LST" ∨ data_type = "NDVI") then
    some "Data type must be \x27LST\x27 or \x27NDVI\x27"
  else if ¬(2000 ≤ year ∧ year ≤ now.year) then
    some ("Year must be between 2000 and " ++ toString now.year)
  else if ¬(1 ≤ month ∧ month ≤ 12) then
    some "Month must be between 1 and 12"
  else if year = now.year ∧ month > now.month then
    some "Cannot request future dates"
  else none

/-! ## Tile-URL construction -/

/-- app.py get_map 234-251 (tile_fetcher branch, then token / plain mapid). -/
def tileUrlApp (project_id : String) (mid : MapId) (mapidVal : String) : String :=
  match mid.tileFetcherUrl with
  | some u => u
  | none =>
    let actual := if mapidVal.contains '/' then (mapidVal.splitOn "/").getLastD mapidVal
                  else mapidVal
    match mid.token with
    | some tok =>
        "https://earthengine.googleapis.com/v1/projects/" ++ project_id ++ "/maps/" ++
          actual ++ "/tiles/\x7bz\x7d/\x7bx\x7d/\x7by\x7d?token=" ++ tok
    | none =>
        "https://earthengine.googleapis.com/v1/" ++ mapidVal ++
          "/tiles/\x7bz\x7d/\x7bx\x7d/\x7by\x7d"

/-- lambda_function.py get_map_data 231-241 (no tile_fetcher branch). -/
def tileUrlLambda (project_id : String) (mid : MapId) (mapidVal : String) : String :=
  let actual := if mapidVal.contains '/' then (mapidVal.splitOn "/").getLastD mapidVal
                else mapidVal
  match mid.token with
  | some tok =>
      "https://earthengine.googleapis.com/v1/projects/" ++ project_id ++ "/maps/" ++
        actual ++ "/tiles/\x7bz\x7d/\x7bx\x7d/\x7by\x7d?token=" ++ tok
  | none =>
      "https://earthengine.googleapis.com/v1/" ++ mapidVal ++
        "/tiles/\x7bz\x7d/\x7bx\x7d/\x7by\x7d"

/-! ## The four endpoint handlers

The AOI resolution (`resolveAoi`), the date interval (`start_date`/`end_date`)
and the image-selection policy (`*SelectImage`) parameterise the upstream
filter/reduce request whose answers the oracle holds; they do not change which
branch the Python handler takes, so the handlers consume the oracle directly
and those computations are embedded (and verified) as the standalone functions
above. -/

/-- app.py `get_map` (73-258). -/
def appGetMap (now : Now) (p : MapParams) (o : MapOracle) : FlaskResponse :=
  match validateMapApp now p.year p.month (strUpper p.typeRaw) with
  | some msg => ⟨400, jerr msg⟩
  | none =>
    match o.initResult with
    | Except.error e =>
        ⟨500, jerr ("Server error: Failed to initialize Google Earth Engine: " ++ e)⟩
    | Except.ok project_id =>
      match o.sizeResult with
      | Except.error e => ⟨500, jerr ("Server error: " ++ e)⟩
      | Except.ok _n =>
        match o.imageInfoResult with
        | Except.error e => ⟨200, jerr ("No data found: " ++ e)⟩
        | Except.ok false =>
            ⟨200, jerr ("No " ++ strUpper p.typeRaw ++
              " data available for the specified time range and location")⟩
        | Except.ok true =>
          match o.mapIdResult with
          | Except.error e => ⟨200, jerr ("Failed to generate map ID: " ++ e)⟩
          | Except.ok mid =>
            match mid.mapid with
            | none => ⟨200, jerr "Failed to generate map tiles. Map ID: None"⟩
            | some mapidVal =>
                ⟨200, [("url", JVal.str (tileUrlApp project_id mid mapidVal))]⟩

/-- lambda_function.py `get_map_data` (67-254). -/
def getMapData (now : Now) (ev : LambdaEvent) (o : MapOracle) : LambdaResponse :=
  if ev.yearMonthParseFail then
    mkLRes 500 (jerr "Server error: invalid literal for int()")
  else
    match validateMapLambda now ev.year ev.month (strUpper ev.typeRaw) with
    | some msg => mkLRes 400 (jerr msg)
    | none =>
      match o.initResult with
      | Except.error e =>
          mkLRes 500 (jerr ("Server error: Failed to initialize Google Earth Engine: " ++ e))
      | Except.ok project_id =>
        match o.imageInfoResult with
        | Except.error e => mkLRes 404 (jerr ("No data found: " ++ e))
        | Except.ok false =>
            mkLRes 404 (jerr ("No " ++ strUpper ev.typeRaw ++
              " data available for the specified time range and location"))
        | Except.ok true =>
          match o.mapIdResult with
          | Except.error e => mkLRes 500 (jerr ("Failed to generate map ID: " ++ e))
          | Except.ok mid =>
            match mid.mapid with
            | none => mkLRes 500 (jerr "Failed to generate map tiles. Map ID: None")
            | some mapidVal =>
                mkLRes 200 [("url", JVal.str (tileUrlLambda project_id mid mapidVal))]

/-- app.py `get_pixel_value` (260-403).  The `sample.get(band_name).getInfo()`
call at 360 is guarded only by the handler-wide `except` (402-403), which
answers 500; `sample` being `None` likewise surfaces as an `AttributeError`
caught at 402-403. -/
def appGetPixelValue (now : Now) (p : PixelParams) (o : PixelOracle) : FlaskResponse :=
  match p.latLng with
  | none => ⟨400, jerr "Latitude and longitude are required"⟩
  | some (lat, lng) =>
    match validatePixelApp now lat lng p.year p.month (strUpper p.typeRaw) with
    | some msg => ⟨400, jerr msg⟩
    | none =>
      match o.initResult with
      | Except.error e =>
          ⟨500, jerr ("Error getting pixel value: Failed to initialize Google Earth Engine: " ++ e)⟩
      | Except.ok _ =>
        match o.sizeResult with
        | Except.error e => ⟨500, jerr ("Error getting pixel value: " ++ e)⟩
        | Except.ok 0 =>
            ⟨200, ("error", JVal.str ("No " ++ strUpper p.typeRaw ++
                " data available for this location and time period")) ::
              [("lat", JVal.rat lat), ("lng", JVal.rat lng),
               ("year", JVal.int p.year), ("month", JVal.int p.month)]⟩
        | Except.ok (_n + 1) =>
          if o.sampleIsNone then
            ⟨500, jerr "Error getting pixel value: \x27NoneType\x27 object has no attribute \x27get\x27"⟩
          else
            match o.getInfoError with
            | some e => ⟨500, jerr ("Error getting pixel value: " ++ e)⟩
            | none =>
              match (if strUpper p.typeRaw = "LST" then Option.map lstTransform o.lstRaw
                     else Option.map (fun pr => ndviOf (s2Scale pr.1) (s2Scale pr.2)) o.nirRed) with
              | none =>
                  ⟨200, ("error", JVal.str "No data available at this exact location") ::
                    [("lat", JVal.rat lat), ("lng", JVal.rat lng),
                     ("year", JVal.int p.year), ("month", JVal.int p.month),
                     ("data_type", JVal.str (strUpper p.typeRaw))]⟩
              | some v =>
                if strUpper p.typeRaw = "LST" then
                  match o.dateResult with
                  | Except.error e => ⟨500, jerr ("Error getting pixel value: " ++ e)⟩
                  | Except.ok d =>
                      ⟨200, [("lat", JVal.rat lat), ("lng", JVal.rat lng),
                             ("year", JVal.int p.year), ("month", JVal.int p.month),
                             ("data_type", JVal.str (strUpper p.typeRaw)),
                             ("temperature_celsius", JVal.rat (pyRound 2 v)),
                             ("image_date", JVal.str d),
                             ("message", JVal.str ("LST Temperature: " ++
                               toString (pyRound 2 v) ++ "°C"))]⟩
                else
                  ⟨200, [("lat", JVal.rat lat), ("lng", JVal.rat lng),
                         ("year", JVal.int p.year), ("month", JVal.int p.month),
                         ("data_type", JVal.str (strUpper p.typeRaw)),
                         ("ndvi_value", JVal.rat (pyRound 3 v)),
                         ("image_date", JVal.str (toString p.year ++ "-" ++ pad2 p.month ++
                           " (composite)")),
                         ("message", JVal.str ("NDVI Value: " ++ toString (pyRound 3 v)))]⟩

/-- lambda_function.py `get_pixel_value_data` (256-472): the empty-collection,
`sample is None`, `sample.get(...)` exception and `None`-value conditions are
each answered with a 404 no-data body. -/
def getPixelValueData (now : Now) (ev : LambdaEvent) (o : PixelOracle) : LambdaResponse :=
  match ev.latLngParse with
  | none => mkLRes 400 (jerr "Latitude and longitude are required and must be numbers")
  | some (lat, lng) =>
    if ev.yearMonthParseFail then
      mkLRes 500 (jerr "Error getting pixel value: invalid literal for int()")
    else
      match validatePixelLambda now lat lng ev.year ev.month (strUpper ev.typeRaw) with
      | some msg => mkLRes 400 (jerr msg)
      | none =>
        match o.initResult with
        | Except.error e =>
            mkLRes 500 (jerr ("Error getting pixel value: Failed to initialize Google Earth Engine: " ++ e))
        | Except.ok _ =>
          match o.sizeResult with
          | Except.error e => mkLRes 500 (jerr ("Error getting pixel value: " ++ e))
          | Except.ok 0 =>
              mkLRes 404 (("error", JVal.str ("No " ++ strUpper ev.typeRaw ++
                  " data available for this location and time period")) ::
                [("lat", JVal.rat lat), ("lng", JVal.rat lng),
                 ("year", JVal.int ev.year), ("month", JVal.int ev.month),
                 ("data_type", JVal.str (strUpper ev.typeRaw))])
          | Except.ok (_n + 1) =>
            if o.sampleIsNone then
              mkLRes 404 (("error", JVal.str ("No " ++ strUpper ev.typeRaw ++
                  " data available at this location (possibly due to cloud cover or data gaps)")) ::
                [("lat", JVal.rat lat), ("lng", JVal.rat lng),
                 ("year", JVal.int ev.year), ("month", JVal.int ev.month),
                 ("data_type", JVal.str (strUpper ev.typeRaw))])
            else
              match o.getInfoError with
              | some _e =>
                  mkLRes 404 (("error", JVal.str ("No " ++ strUpper ev.typeRaw ++
                      " data available at this location (data processing error)")) ::
                    [("lat", JVal.rat lat), ("lng", JVal.rat lng),
                     ("year", JVal.int ev.year), ("month", JVal.int ev.month),
                     ("data_type", JVal.str (strUpper ev.typeRaw))])
              | none =>
                match (if strUpper ev.typeRaw = "LST" then Option.map lstTransform o.lstRaw
                       else Option.map (fun pr => ndviOf (s2Scale pr.1) (s2Scale pr.2)) o.nirRed) with
                | none =>
                    mkLRes 404 (("error", JVal.str "No data available at this exact location") ::
                      [("lat", JVal.rat lat), ("lng", JVal.rat lng),
                       ("year", JVal.int ev.year), ("month", JVal.int ev.month),
                       ("data_type", JVal.str (strUpper ev.typeRaw))])
                | some v =>
                  if strUpper ev.typeRaw = "LST" then
                    match o.dateResult with
                    | Except.error e => mkLRes 500 (jerr ("Error getting pixel value: " ++ e))
                    | Except.ok d =>
                        mkLRes 200 [("lat", JVal.rat lat), ("lng", JVal.rat lng),
                          ("year", JVal.int ev.year), ("month", JVal.int ev.month),
                          ("data_type", JVal.str (strUpper ev.typeRaw)),
                          ("temperature_celsius", JVal.rat (pyRound 2 v)),
                          ("image_date", JVal.str d),
                          ("message", JVal.str ("LST Temperature: " ++
                            toString (pyRound 2 v) ++ "Â°C"))]
                  else
                    mkLRes 200 [("lat", JVal.rat lat), ("lng", JVal.rat lng),
                      ("year", JVal.int ev.year), ("month", JVal.int ev.month),
                      ("data_type", JVal.str (strUpper ev.typeRaw)),
                      ("ndvi_value", JVal.rat (pyRound 3 v)),
                      ("image_date", JVal.str (toString ev.year ++ "-" ++ pad2 ev.month ++
                        " (composite)")),
                      ("message", JVal.str ("NDVI Value: " ++ toString (pyRound 3 v)))]

/-- lambda_function.py `lambda_handler` (474-510). -/
def lambda_handler (now : Now) (ev : LambdaEvent) (mo : MapOracle) (po : PixelOracle) :
    LambdaResponse :=
  if ev.httpMethod == "OPTIONS" then ⟨200, optionsHeaders, []⟩
  else if ev.path == "/api/map" || strEndsWith ev.path "/map" then getMapData now ev mo
  else if ev.path == "/api/pixel_value" || strEndsWith ev.path "/pixel_value" then
    getPixelValueData now ev po
  else mkLRes 404 (jerr "Not found")

/-! ## Shared concrete fixtures for witnesses and counterexamples -/

def exNow : Now := ⟨2025, 6⟩

def exMapParams : MapParams := ⟨2024, 7, "LST", none⟩

def exPixLST : PixelParams := ⟨some (-6, -60), 2024, 7, "LST"⟩

def exPixNDVI : PixelParams := ⟨some (-6, -60), 2024, 7, "NDVI"⟩

def exEvMap : LambdaEvent := ⟨"GET", "/api/map", false, 2024, 7, "LST", none, none⟩

def exEvPixLST : LambdaEvent :=
  ⟨"GET", "/api/pixel_value", false, 2024, 7, "LST", none, some (-6, -60)⟩

def exEvPixNDVI : LambdaEvent :=
  ⟨"GET", "/api/pixel_value", false, 2024, 7, "NDVI", none, some (-6, -60)⟩

def oPixOkLST (v : ℚ) : PixelOracle :=
  ⟨Except.ok (), Except.ok 4, false, none, some v, none, Except.ok "2024-07-12"⟩

def oPixOkNDVI (nir red : ℚ) : PixelOracle :=
  ⟨Except.ok (), Except.ok 4, false, none, none, some (nir, red), Except.ok "2024-07-12"⟩

def oPixEmpty : PixelOracle :=
  ⟨Except.ok (), Except.ok 0, false, none, none, none, Except.ok "2024-07-12"⟩

def oPixNoMatch : PixelOracle :=
  ⟨Except.ok (), Except.ok 3, false,
   some "Element.get: Parameter \x27object\x27 is required.", none, none,
   Except.ok "2024-07-12"⟩

def oPixSampleNone : PixelOracle :=
  ⟨Except.ok (), Except.ok 3, true, none, none, none, Except.ok "2024-07-12"⟩

def oPixValueNone : PixelOracle :=
  ⟨Except.ok (), Except.ok 3, false, none, none, none, Except.ok "2024-07-12"⟩

def oPixInitFail : PixelOracle :=
  ⟨Except.error "no credentials", Except.ok 3, false, none, none, none, Except.ok "x"⟩

def oMapOkId : MapId := ⟨some "projects/p/maps/abc", none, none⟩

def oMapOk : MapOracle := ⟨Except.ok "proj", Except.ok 5, Except.ok true, Except.ok oMapOkId⟩

def oMapNoInfo : MapOracle :=
  ⟨Except.ok "proj", Except.ok 0, Except.ok false, Except.ok oMapOkId⟩

def oMapIdFail : MapOracle :=
  ⟨Except.ok "proj", Except.ok 5, Except.ok true, Except.error "computation failed"⟩

def oMapInitFail : MapOracle :=
  ⟨Except.error "no credentials", Except.ok 0, Except.ok false, Except.ok oMapOkId⟩

/-! ## Spec-side definitions used to compare the source against the spec text -/

/-- Modelled from the spec wording: a date string first-of-month, month zero-padded. -/
def formatDateSpec (year month : Int) : String :=
  toString year ++ "-" ++ pad2 month ++ "-01"

/-- Modelled from the spec wording: the calendar month following (year, month). -/
def specNextMonth (year month : Int) : Int × Int :=
  if month = 12 then (year + 1, 1) else (year, month + 1)

theorem append_fold_jan (s : String) : s ++ "-" ++ "01" ++ "-01" = s ++ "-01-01" := by
  rw [String.append_assoc, String.append_assoc]; rfl

/-! ## Claims -/

/-- C1: in app.py the samplePoint image-selection policy does match renderMap's
(most recent image for LST, per-pixel median composite for NDVI), and the two
renderMap implementations agree; but lambda_function.py's samplePoint takes the
most recent image unconditionally, so for NDVI it diverges from renderMap's
median policy already on a two-image collection. -/
theorem claim_C1_selection_policy :
    (∀ dt coll, appPixelSelectImage dt coll = appMapSelectImage dt coll) ∧
    (∀ dt coll, lambdaMapSelectImage dt coll = appMapSelectImage dt coll) ∧
    lambdaPixelSelectImage "NDVI" [⟨0⟩, ⟨86400000⟩] ≠
      lambdaMapSelectImage "NDVI" [⟨0⟩, ⟨86400000⟩] := by
  refine ⟨fun dt coll => rfl, fun dt coll => rfl, ?_⟩
  decide

/-- C5: geometry resolution is total and substitutes the default rectangle
[-65.0, -10.0, -55.0, -2.0] for every malformed AOI parameter: absent value,
unparseable JSON, and every value the parse-and-build step rejects (unknown
type tag, missing or ill-shaped bounds/coordinates, shown on concrete
instances of each kind). -/
theorem claim_C5_aoi_fallback :
    resolveAoi none = defaultAoi ∧
    resolveAoi (some none) = defaultAoi ∧
    (∀ j : JVal, parseAoiGeometry j = none → resolveAoi (some (some j)) = defaultAoi) ∧
    parseAoiGeometry (JVal.obj [("type", JVal.str "circle")]) = none ∧
    parseAoiGeometry (JVal.obj [("type", JVal.str "rectangle"),
      ("bounds", JVal.arr [JVal.int 1, JVal.int 2, JVal.int 3])]) = none ∧
    parseAoiGeometry (JVal.obj [("type", JVal.str "polygon"),
      ("coordinates", JVal.str "oops")]) = none := by
  refine ⟨rfl, rfl, ?_, rfl, rfl, rfl⟩
  intro j h
  simp [resolveAoi, h]

theorem claim_C5_witness :
    resolveAoi (some (some (JVal.str "not an object"))) = defaultAoi :=
  claim_C5_aoi_fallback.2.2.1 (JVal.str "not an object") rfl

/-- C7: for every valid (year, month) the requested interval is half-open from
the first of the month to the first of the next month: the start date is
YYYY-MM-01 with the month zero-padded to two digits, and the end date is the
first of month (MM+1) for months 1..11 and of January of (YYYY+1) for
month 12. -/
theorem claim_C7_date_interval (year month : Int) (h1 : 1 ≤ month) (h2 : month ≤ 12) :
    start_date year month = formatDateSpec year month ∧
    end_date year month =
      formatDateSpec (specNextMonth year month).1 (specNextMonth year month).2 ∧
    (pad2 month).length = 2 := by
  refine ⟨rfl, ?_, ?_⟩
  · interval_cases month
    · rfl
    · rfl
    · rfl
    · rfl
    · rfl
    · rfl
    · rfl
    · rfl
    · rfl
    · rfl
    · rfl
    · exact (append_fold_jan (toString (year + 1))).symm
  · interval_cases month <;> rfl

theorem claim_C7_witness :
    (start_date 2024 12 = formatDateSpec 2024 12 ∧
      end_date 2024 12 =
        formatDateSpec (specNextMonth 2024 12).1 (specNextMonth 2024 12).2 ∧
      (pad2 12).length = 2) ∧
    ((1:Int) ≤ 7 ∧ (7:Int) ≤ 12 ∧ end_date 2024 7 = "2024-08-01") :=
  ⟨claim_C7_date_interval 2024 12 (by decide) (by decide),
   by decide, by decide, rfl⟩

/-- C10: the divide-by-10000 rescaling applied by mask_s2_clouds cancels in the
normalized-difference formula: for positive NIR and RED reflectances, NDVI of
the rescaled bands equals NDVI of the raw bands. -/
theorem claim_C10_rescale_invariant (nir red : ℚ) (hn : 0 < nir) (hr : 0 < red) :
    ndviOf (s2Scale nir) (s2Scale red) = ndviOf nir red := by
  unfold ndviOf s2Scale
  have hs : nir + red ≠ 0 := by positivity
  field_simp

theorem claim_C10_witness :
    (0:ℚ) < 5 ∧ (0:ℚ) < 3 ∧ ndviOf (s2Scale 5) (s2Scale 3) = ndviOf 5 3 :=
  ⟨by decide, by decide, claim_C10_rescale_invariant 5 3 (by decide) (by decide)⟩

/-! ## Validation helper lemmas -/

theorem validateMapApp_future (now : Now) (year month : Int) (dt : String)
    (h : year > now.year ∨ (year = now.year ∧ month > now.month)) :
    ∃ msg, validateMapApp now year month dt = some msg := by
  unfold validateMapApp
  split_ifs <;> exact ⟨_, rfl⟩

theorem validateMapLambda_future (now : Now) (year month : Int) (dt : String)
    (h : year > now.year ∨ (year = now.year ∧ month > now.month)) :
    ∃ msg, validateMapLambda now year month dt = some msg := by
  unfold validateMapLambda
  split_ifs with h1 h2 h3 h4 <;> try exact ⟨_, rfl⟩
  exfalso
  rcases h with hy | hcm
  · omega
  · exact h4 hcm

theorem validatePixelApp_future (now : Now) (lat lng : ℚ) (year month : Int) (dt : String)
    (h : year > now.year ∨ (year = now.year ∧ month > now.month)) :
    ∃ msg, validatePixelApp now lat lng year month dt = some msg := by
  unfold validatePixelApp
  split_ifs <;> exact ⟨_, rfl⟩

theorem validatePixelLambda_future (now : Now) (lat lng : ℚ) (year month : Int) (dt : String)
    (h : year > now.year ∨ (year = now.year ∧ month > now.month)) :
    ∃ msg, validatePixelLambda now lat lng year month dt = some msg := by
  unfold validatePixelLambda
  split_ifs with h1 h2 h3 h4 h5 h6 <;> try exact ⟨_, rfl⟩
  exfalso
  rcases h with hy | hcm
  · omega
  · exact h6 hcm

/-- C2: on a well-formed samplePoint request whose upstream point sample yields
no match (`sample.get(band).getInfo()` raising, as Earth Engine does for an
empty sample collection, or `first()` being None), app.py falls through to its
catch-all and answers 500 — contradicting the required no-data classification —
while lambda_function.py classifies all three failure conditions (empty
collection, no sample match, undefined value) as 404 no-data bodies, and
app.py soft-classifies the other two conditions as 200-with-error. -/
theorem claim_C2_no_data_paths :
    (appGetPixelValue exNow exPixLST oPixNoMatch).status = 500 ∧
    (appGetPixelValue exNow exPixLST oPixSampleNone).status = 500 ∧
    (appGetPixelValue exNow exPixLST oPixEmpty).status = 200 ∧
    hasKeyB (appGetPixelValue exNow exPixLST oPixEmpty).body "error" = true ∧
    (appGetPixelValue exNow exPixLST oPixValueNone).status = 200 ∧
    hasKeyB (appGetPixelValue exNow exPixLST oPixValueNone).body "error" = true ∧
    (getPixelValueData exNow exEvPixLST oPixEmpty).statusCode = 404 ∧
    (getPixelValueData exNow exEvPixLST oPixNoMatch).statusCode = 404 ∧
    (getPixelValueData exNow exEvPixLST oPixSampleNone).statusCode = 404 ∧
    (getPixelValueData exNow exEvPixLST oPixValueNone).statusCode = 404 ∧
    hasKeyB (getPixelValueData exNow exEvPixLST oPixNoMatch).body "error" = true :=
  ⟨rfl, rfl, rfl, rfl, rfl, rfl, rfl, rfl, rfl, rfl, rfl⟩

/-- C4: any request whose (year, month) pair lies strictly after the current
calendar month — including any year strictly above the current year — is
rejected with status 400 by all four handlers, whatever the other parameters
and whatever the upstream oracle would have answered. -/
theorem claim_C4_future_rejected :
    (∀ (now : Now) (p : MapParams) (mo : MapOracle),
      (p.year > now.year ∨ (p.year = now.year ∧ p.month > now.month)) →
      (appGetMap now p mo).status = 400) ∧
    (∀ (now : Now) (pp : PixelParams) (po : PixelOracle),
      (pp.year > now.year ∨ (pp.year = now.year ∧ pp.month > now.month)) →
      (appGetPixelValue now pp po).status = 400) ∧
    (∀ (now : Now) (ev : LambdaEvent) (mo : MapOracle),
      ev.yearMonthParseFail = false →
      (ev.year > now.year ∨ (ev.year = now.year ∧ ev.month > now.month)) →
      (getMapData now ev mo).statusCode = 400) ∧
    (∀ (now : Now) (ev : LambdaEvent) (po : PixelOracle),
      ev.yearMonthParseFail = false →
      (ev.year > now.year ∨ (ev.year = now.year ∧ ev.month > now.month)) →
      (getPixelValueData now ev po).statusCode = 400) := by
  refine ⟨?_, ?_, ?_, ?_⟩
  · intro now p mo h
    obtain ⟨msg, hm⟩ := validateMapApp_future now p.year p.month (strUpper p.typeRaw) h
    simp [appGetMap, hm]
  · intro now pp po h
    cases hp : pp.latLng with
    | none => simp [appGetPixelValue, hp]
    | some ll =>
      obtain ⟨lat, lng⟩ := ll
      obtain ⟨msg, hm⟩ :=
        validatePixelApp_future now lat lng pp.year pp.month (strUpper pp.typeRaw) h
      simp [appGetPixelValue, hp, hm]
  · intro now ev mo hpf h
    obtain ⟨msg, hm⟩ := validateMapLambda_future now ev.year ev.month (strUpper ev.typeRaw) h
    simp [getMapData, hpf, hm, mkLRes]
  · intro now ev po hpf h
    cases hp : ev.latLngParse with
    | none => simp [getPixelValueData, hp, mkLRes]
    | some ll =>
      obtain ⟨lat, lng⟩ := ll
      obtain ⟨msg, hm⟩ :=
        validatePixelLambda_future now lat lng ev.year ev.month (strUpper ev.typeRaw) h
      simp [getPixelValueData, hp, hpf, hm, mkLRes]

theorem claim_C4_witness :
    (appGetMap exNow ⟨2026, 1, "LST", none⟩ oMapOk).status = 400 ∧
    (appGetPixelValue exNow ⟨some (-6, -60), 2025, 7, "LST"⟩ (oPixOkLST 15000)).status = 400 ∧
    (getMapData exNow ⟨"GET", "/api/map", false, 2025, 12, "NDVI", none, none⟩
      oMapOk).statusCode = 400 ∧
    (getPixelValueData exNow ⟨"GET", "/api/pixel_value", false, 2026, 1, "LST", none,
      some (-6, -60)⟩ (oPixOkLST 15000)).statusCode = 400 :=
  ⟨claim_C4_future_rejected.1 exNow _ _ (Or.inl (by decide)),
   claim_C4_future_rejected.2.1 exNow _ _ (Or.inr ⟨by decide, by decide⟩),
   claim_C4_future_rejected.2.2.1 exNow _ _ rfl (Or.inr ⟨by decide, by decide⟩),
   claim_C4_future_rejected.2.2.2 exNow _ _ rfl (Or.inl (by decide))⟩

/-- A body is success-bearing when it holds one of the success fields. -/
def errXorOk (b : Body) : Bool :=
  (hasKeyB b "error") !=
    (hasKeyB b "url" || hasKeyB b "temperature_celsius" || hasKeyB b "ndvi_value")

/-- C6: whatever the parameters and whatever the upstream answers, the body
produced by each of the four handlers carries an error field exactly when it
carries none of the success fields (url, temperature_celsius, ndvi_value):
never both, never neither. -/
theorem claim_C6_error_xor_success :
    (∀ (now : Now) (p : MapParams) (o : MapOracle),
      errXorOk (appGetMap now p o).body = true) ∧
    (∀ (now : Now) (p : PixelParams) (o : PixelOracle),
      errXorOk (appGetPixelValue now p o).body = true) ∧
    (∀ (now : Now) (ev : LambdaEvent) (o : MapOracle),
      errXorOk (getMapData now ev o).body = true) ∧
    (∀ (now : Now) (ev : LambdaEvent) (o : PixelOracle),
      errXorOk (getPixelValueData now ev o).body = true) := by
  refine ⟨?_, ?_, ?_, ?_⟩
  · intro now p o
    unfold appGetMap
    repeat' (first | rfl | split)
  · intro now p o
    unfold appGetPixelValue
    repeat' (first | rfl | split)
  · intro now ev o
    unfold getMapData
    repeat' (first | rfl | split)
  · intro now ev o
    unfold getPixelValueData
    repeat' (first | rfl | split)

/-- C9: every response produced by the Lambda handler — success, every error
branch of both endpoint functions, the CORS preflight branch and the
unknown-path branch — carries the header Access-Control-Allow-Origin: *. -/
theorem claim_C9_cors (now : Now) (ev : LambdaEvent) (mo : MapOracle) (po : PixelOracle) :
    hasCors (lambda_handler now ev mo po).headers = true := by
  unfold lambda_handler getMapData getPixelValueData
  repeat' (first | rfl | split)

/-- C8: in a successful samplePoint response the LST value is reported as
round(raw × 0.02 − 273.15, 2) (so the raw value 15000 yields exactly 26.85 °C)
and the NDVI value is reported rounded to 3 decimals (so a sampled value of
0.123456 — e.g. from raw reflectances 5617.28/4382.72 — yields exactly 0.123),
in both implementations. -/
theorem claim_C8_value_scaling :
    (∀ v : ℚ,
      bodyGet (appGetPixelValue exNow exPixLST (oPixOkLST v)).body "temperature_celsius" =
        some (JVal.rat (pyRound 2 (v * (2/100) - 27315/100))) ∧
      bodyGet (getPixelValueData exNow exEvPixLST (oPixOkLST v)).body "temperature_celsius" =
        some (JVal.rat (pyRound 2 (v * (2/100) - 27315/100)))) ∧
    (∀ nir red : ℚ,
      bodyGet (appGetPixelValue exNow exPixNDVI (oPixOkNDVI nir red)).body "ndvi_value" =
        some (JVal.rat (pyRound 3 (ndviOf (nir / 10000) (red / 10000)))) ∧
      bodyGet (getPixelValueData exNow exEvPixNDVI (oPixOkNDVI nir red)).body "ndvi_value" =
        some (JVal.rat (pyRound 3 (ndviOf (nir / 10000) (red / 10000))))) ∧
    pyRound 2 (15000 * (2/100) - 27315/100) = 2685/100 ∧
    pyRound 3 (123456/1000000) = 123/1000 ∧
    pyRound 3 (ndviOf (s2Scale (561728/100)) (s2Scale (438272/100))) = 123/1000 ∧
    (appGetPixelValue exNow exPixLST (oPixOkLST 15000)).status = 200 := by
  refine ⟨fun v => ⟨rfl, rfl⟩, fun nir red => ⟨rfl, rfl⟩, ?_, ?_, ?_, rfl⟩
  · norm_num [pyRound, roundHalfEven]
  · norm_num [pyRound, roundHalfEven]
  · norm_num [pyRound, roundHalfEven, ndviOf, s2Scale]

/-- C3 counterexample: the claimed status mapping fails on both
implementations at concrete no-data inputs: the Flask pixel endpoint answers
an empty collection with a soft 200-with-error body (not the claimed 404),
and the Lambda map endpoint answers a no-data condition with 404 (not the
claimed soft 200). -/
theorem claim_C3_counterexample :
    (appGetPixelValue exNow exPixLST oPixEmpty).status = 200 ∧
    ¬(appGetPixelValue exNow exPixLST oPixEmpty).status = 404 ∧
    hasKeyB (appGetPixelValue exNow exPixLST oPixEmpty).body "error" = true ∧
    (getMapData exNow exEvMap oMapNoInfo).statusCode = 404 ∧
    ¬(getMapData exNow exEvMap oMapNoInfo).statusCode = 200 := by
  refine ⟨rfl, by decide, rfl, rfl, by decide⟩

def isNoInfoB : Except String Bool → Bool
  | Except.ok true => false
  | _ => true

def isMapIdFailB : Except String MapId → Bool
  | Except.error _ => true
  | Except.ok mid => mid.mapid.isNone

/-- C3 amended: ValidationError yields 400 on both endpoints in both
implementations.  No-data conditions are answered with soft 200-with-error
bodies on BOTH endpoints of the Flask implementation, and with 404 on both
endpoints of the Lambda implementation.  Tile-metadata (getMapId) failure is a
soft 200-with-error in Flask but a 500 in the Lambda.  UpstreamError
(initialization failure) and unclassified failures yield 500 everywhere. -/
theorem claim_C3_amended :
    (∀ (now : Now) (p : MapParams) (mo : MapOracle) (msg : String),
      validateMapApp now p.year p.month (strUpper p.typeRaw) = some msg →
      (appGetMap now p mo).status = 400) ∧
    (∀ (now : Now) (ev : LambdaEvent) (mo : MapOracle) (msg : String),
      ev.yearMonthParseFail = false →
      validateMapLambda now ev.year ev.month (strUpper ev.typeRaw) = some msg →
      (getMapData now ev mo).statusCode = 400) ∧
    (∀ (now : Now) (pp : PixelParams) (po : PixelOracle),
      pp.latLng = none → (appGetPixelValue now pp po).status = 400) ∧
    (∀ (now : Now) (pp : PixelParams) (po : PixelOracle) (lat lng : ℚ) (msg : String),
      pp.latLng = some (lat, lng) →
      validatePixelApp now lat lng pp.year pp.month (strUpper pp.typeRaw) = some msg →
      (appGetPixelValue now pp po).status = 400) ∧
    (∀ (now : Now) (ev : LambdaEvent) (po : PixelOracle),
      ev.latLngParse = none → (getPixelValueData now ev po).statusCode = 400) ∧
    (∀ (now : Now) (ev : LambdaEvent) (po : PixelOracle) (lat lng : ℚ) (msg : String),
      ev.latLngParse = some (lat, lng) → ev.yearMonthParseFail = false →
      validatePixelLambda now lat lng ev.year ev.month (strUpper ev.typeRaw) = some msg →
      (getPixelValueData now ev po).statusCode = 400) ∧
    (∀ (now : Now) (p : MapParams) (mo : MapOracle) (pid : String) (n : Nat),
      validateMapApp now p.year p.month (strUpper p.typeRaw) = none →
      mo.initResult = Except.ok pid → mo.sizeResult = Except.ok n →
      isNoInfoB mo.imageInfoResult = true →
      (appGetMap now p mo).status = 200 ∧
        hasKeyB (appGetMap now p mo).body "error" = true) ∧
    (∀ (now : Now) (ev : LambdaEvent) (mo : MapOracle) (pid : String),
      ev.yearMonthParseFail = false →
      validateMapLambda now ev.year ev.month (strUpper ev.typeRaw) = none →
      mo.initResult = Except.ok pid → isNoInfoB mo.imageInfoResult = true →
      (getMapData now ev mo).statusCode = 404) ∧
    (∀ (now : Now) (p : MapParams) (mo : MapOracle) (pid : String) (n : Nat),
      validateMapApp now p.year p.month (strUpper p.typeRaw) = none →
      mo.initResult = Except.ok pid → mo.sizeResult = Except.ok n →
      mo.imageInfoResult = Except.ok true → isMapIdFailB mo.mapIdResult = true →
      (appGetMap now p mo).status = 200 ∧
        hasKeyB (appGetMap now p mo).body "error" = true) ∧
    (∀ (now : Now) (ev : LambdaEvent) (mo : MapOracle) (pid : String),
      ev.yearMonthParseFail = false →
      validateMapLambda now ev.year ev.month (strUpper ev.typeRaw) = none →
      mo.initResult = Except.ok pid → mo.imageInfoResult = Except.ok true →
      isMapIdFailB mo.mapIdResult = true →
      (getMapData now ev mo).statusCode = 500) ∧
    (∀ (now : Now) (pp : PixelParams) (po : PixelOracle) (lat lng : ℚ),
      pp.latLng = some (lat, lng) →
      validatePixelApp now lat lng pp.year pp.month (strUpper pp.typeRaw) = none →
      po.initResult = Except.ok () → po.sizeResult = Except.ok 0 →
      (appGetPixelValue now pp po).status = 200 ∧
        hasKeyB (appGetPixelValue now pp po).body "error" = true) ∧
    (∀ (now : Now) (ev : LambdaEvent) (po : PixelOracle) (lat lng : ℚ),
      ev.latLngParse = some (lat, lng) → ev.yearMonthParseFail = false →
      validatePixelLambda now lat lng ev.year ev.month (strUpper ev.typeRaw) = none →
      po.initResult = Except.ok () → po.sizeResult = Except.ok 0 →
      (getPixelValueData now ev po).statusCode = 404) ∧
    (∀ (now : Now) (pp : PixelParams) (po : PixelOracle) (lat lng : ℚ) (n : Nat),
      pp.latLng = some (lat, lng) → strUpper pp.typeRaw = "LST" →
      validatePixelApp now lat lng pp.year pp.month "LST" = none →
      po.initResult = Except.ok () → po.sizeResult = Except.ok (n + 1) →
      po.sampleIsNone = false → po.getInfoError = none → po.lstRaw = none →
      (appGetPixelValue now pp po).status = 200 ∧
        hasKeyB (appGetPixelValue now pp po).body "error" = true) ∧
    (∀ (now : Now) (ev : LambdaEvent) (po : PixelOracle) (lat lng : ℚ) (n : Nat),
      ev.latLngParse = some (lat, lng) → ev.yearMonthParseFail = false →
      strUpper ev.typeRaw = "LST" →
      validatePixelLambda now lat lng ev.year ev.month "LST" = none →
      po.initResult = Except.ok () → po.sizeResult = Except.ok (n + 1) →
      po.sampleIsNone = false → po.getInfoError = none → po.lstRaw = none →
      (getPixelValueData now ev po).statusCode = 404) ∧
    (∀ (now : Now) (p : MapParams) (mo : MapOracle) (e : String),
      validateMapApp now p.year p.month (strUpper p.typeRaw) = none →
      mo.initResult = Except.error e → (appGetMap now p mo).status = 500) ∧
    (∀ (now : Now) (ev : LambdaEvent) (mo : MapOracle) (e : String),
      ev.yearMonthParseFail = false →
      validateMapLambda now ev.year ev.month (strUpper ev.typeRaw) = none →
      mo.initResult = Except.error e → (getMapData now ev mo).statusCode = 500) ∧
    (∀ (now : Now) (pp : PixelParams) (po : PixelOracle) (lat lng : ℚ) (e : String),
      pp.latLng = some (lat, lng) →
      validatePixelApp now lat lng pp.year pp.month (strUpper pp.typeRaw) = none →
      po.initResult = Except.error e → (appGetPixelValue now pp po).status = 500) ∧
    (∀ (now : Now) (ev : LambdaEvent) (po : PixelOracle) (lat lng : ℚ) (e : String),
      ev.latLngParse = some (lat, lng) → ev.yearMonthParseFail = false →
      validatePixelLambda now lat lng ev.year ev.month (strUpper ev.typeRaw) = none →
      po.initResult = Except.error e → (getPixelValueData now ev po).statusCode = 500) := by
  refine ⟨?_, ?_, ?_, ?_, ?_, ?_, ?_, ?_, ?_, ?_, ?_, ?_, ?_, ?_, ?_, ?_, ?_, ?_⟩
  · intro now p mo msg hv
    simp [appGetMap, hv]
  · intro now ev mo msg hpf hv
    simp [getMapData, hpf, hv, mkLRes]
  · intro now pp po hll
    simp [appGetPixelValue, hll]
  · intro now pp po lat lng msg hll hv
    simp [appGetPixelValue, hll, hv]
  · intro now ev po hll
    simp [getPixelValueData, hll, mkLRes]
  · intro now ev po lat lng msg hll hpf hv
    simp [getPixelValueData, hll, hpf, hv, mkLRes]
  · intro now p mo pid n hv hi hs hinfo
    rcases hr : mo.imageInfoResult with e | b
    · simp [appGetMap, hv, hi, hs, hr, hasKeyB, jerr]
    · cases b
      · simp [appGetMap, hv, hi, hs, hr, hasKeyB, jerr]
      · rw [hr] at hinfo
        simp [isNoInfoB] at hinfo
  · intro now ev mo pid hpf hv hi hinfo
    rcases hr : mo.imageInfoResult with e | b
    · simp [getMapData, hpf, hv, hi, hr, mkLRes]
    · cases b
      · simp [getMapData, hpf, hv, hi, hr, mkLRes]
      · rw [hr] at hinfo
        simp [isNoInfoB] at hinfo
  · intro now p mo pid n hv hi hs hinfo hmid
    rcases hm : mo.mapIdResult with e | mid
    · simp [appGetMap, hv, hi, hs, hinfo, hm, hasKeyB, jerr]
    · rw [hm] at hmid
      simp [isMapIdFailB, Option.isNone_iff_eq_none] at hmid
      simp [appGetMap, hv, hi, hs, hinfo, hm, hmid, hasKeyB, jerr]
  · intro now ev mo pid hpf hv hi hinfo hmid
    rcases hm : mo.mapIdResult with e | mid
    · simp [getMapData, hpf, hv, hi, hinfo, hm, mkLRes]
    · rw [hm] at hmid
      simp [isMapIdFailB, Option.isNone_iff_eq_none] at hmid
      simp [getMapData, hpf, hv, hi, hinfo, hm, hmid, mkLRes]
  · intro now pp po lat lng hll hv hi hs
    simp [appGetPixelValue, hll, hv, hi, hs, hasKeyB, jerr]
  · intro now ev po lat lng hll hpf hv hi hs
    simp [getPixelValueData, hll, hpf, hv, hi, hs, mkLRes]
  · intro now pp po lat lng n hll hdt hv hi hs hnone hgerr hraw
    simp [appGetPixelValue, hll, hdt, hv, hi, hs, hnone, hgerr, hraw, hasKeyB, jerr]
  · intro now ev po lat lng n hll hpf hdt hv hi hs hnone hgerr hraw
    simp [getPixelValueData, hll, hpf, hdt, hv, hi, hs, hnone, hgerr, hraw, mkLRes]
  · intro now p mo e hv hi
    simp [appGetMap, hv, hi]
  · intro now ev mo e hpf hv hi
    simp [getMapData, hpf, hv, hi, mkLRes]
  · intro now pp po lat lng e hll hv hi
    simp [appGetPixelValue, hll, hv, hi]
  · intro now ev po lat lng e hll hpf hv hi
    simp [getPixelValueData, hll, hpf, hv, hi, mkLRes]

theorem claim_C3_witness :
    (appGetMap exNow ⟨1999, 7, "LST", none⟩ oMapOk).status = 400 ∧
    (getMapData exNow ⟨"GET", "/api/map", false, 1999, 7, "LST", none, none⟩
      oMapOk).statusCode = 400 ∧
    (appGetPixelValue exNow ⟨none, 2024, 7, "LST"⟩ (oPixOkLST 15000)).status = 400 ∧
    (appGetPixelValue exNow ⟨some (95, 0), 2024, 7, "LST"⟩ (oPixOkLST 15000)).status = 400 ∧
    (getPixelValueData exNow ⟨"GET", "/api/pixel_value", false, 2024, 7, "LST", none, none⟩
      (oPixOkLST 15000)).statusCode = 400 ∧
    (getPixelValueData exNow ⟨"GET", "/api/pixel_value", false, 2024, 7, "LST", none,
      some (95, 0)⟩ (oPixOkLST 15000)).statusCode = 400 ∧
    ((appGetMap exNow exMapParams oMapNoInfo).status = 200 ∧
      hasKeyB (appGetMap exNow exMapParams oMapNoInfo).body "error" = true) ∧
    (getMapData exNow exEvMap oMapNoInfo).statusCode = 404 ∧
    ((appGetMap exNow exMapParams oMapIdFail).status = 200 ∧
      hasKeyB (appGetMap exNow exMapParams oMapIdFail).body "error" = true) ∧
    (getMapData exNow exEvMap oMapIdFail).statusCode = 500 ∧
    ((appGetPixelValue exNow exPixLST oPixEmpty).status = 200 ∧
      hasKeyB (appGetPixelValue exNow exPixLST oPixEmpty).body "error" = true) ∧
    (getPixelValueData exNow exEvPixLST oPixEmpty).statusCode = 404 ∧
    ((appGetPixelValue exNow exPixLST oPixValueNone).status = 200 ∧
      hasKeyB (appGetPixelValue exNow exPixLST oPixValueNone).body "error" = true) ∧
    (getPixelValueData exNow exEvPixLST oPixValueNone).statusCode = 404 ∧
    (appGetMap exNow exMapParams oMapInitFail).status = 500 ∧
    (getMapData exNow exEvMap oMapInitFail).statusCode = 500 ∧
    (appGetPixelValue exNow exPixLST oPixInitFail).status = 500 ∧
    (getPixelValueData exNow exEvPixLST oPixInitFail).statusCode = 500 := by
  obtain ⟨a1, a2, a3, a4, a5, a6, b1, b2, c1, c2, d1, d2, e1, e2, f1, f2, f3, f4⟩ :=
    claim_C3_amended
  exact ⟨a1 exNow ⟨1999, 7, "LST", none⟩ oMapOk _ rfl,
    a2 exNow ⟨"GET", "/api/map", false, 1999, 7, "LST", none, none⟩ oMapOk _ rfl rfl,
    a3 exNow ⟨none, 2024, 7, "LST"⟩ (oPixOkLST 15000) rfl,
    a4 exNow ⟨some (95, 0), 2024, 7, "LST"⟩ (oPixOkLST 15000) 95 0 _ rfl rfl,
    a5 exNow ⟨"GET", "/api/pixel_value", false, 2024, 7, "LST", none, none⟩
      (oPixOkLST 15000) rfl,
    a6 exNow ⟨"GET", "/api/pixel_value", false, 2024, 7, "LST", none, some (95, 0)⟩
      (oPixOkLST 15000) 95 0 _ rfl rfl rfl,
    b1 exNow exMapParams oMapNoInfo "proj" 0 rfl rfl rfl rfl,
    b2 exNow exEvMap oMapNoInfo "proj" rfl rfl rfl rfl,
    c1 exNow exMapParams oMapIdFail "proj" 5 rfl rfl rfl rfl rfl,
    c2 exNow exEvMap oMapIdFail "proj" rfl rfl rfl rfl rfl,
    d1 exNow exPixLST oPixEmpty (-6) (-60) rfl rfl rfl rfl,
    d2 exNow exEvPixLST oPixEmpty (-6) (-60) rfl rfl rfl rfl rfl,
    e1 exNow exPixLST oPixValueNone (-6) (-60) 2 rfl rfl rfl rfl rfl rfl rfl rfl,
    e2 exNow exEvPixLST oPixValueNone (-6) (-60) 2 rfl rfl rfl rfl rfl rfl rfl rfl rfl,
    f1 exNow exMapParams oMapInitFail "no credentials" rfl rfl,
    f2 exNow exEvMap oMapInitFail "no credentials" rfl rfl rfl,
    f3 exNow exPixLST oPixInitFail (-6) (-60) "no credentials" rfl rfl rfl,
    f4 exNow exEvPixLST oPixInitFail (-6) (-60) "no credentials" rfl rfl rfl rfl⟩
